import Mathlib

/-!
Shallow embedding of the lsrc2 LimeSurvey RemoteControl 2 client
(files lsrc2/session.py and limesurvey/__init__.py).

Python values flowing through the client are JSON values; Python None is
modelled as JValue.null. Code paths that can raise a Python exception are
modelled with Except PyExc. Note that both source files reference a module
level name logger that is never defined (only the logging module is
imported), so every statement logger.error(...) raises NameError at
runtime; the embedding models those statements as PyExc.nameError.
Statements using logging.debug / logging.info / logging.error go through
the imported logging module and do not raise; they are omitted as pure
no-ops.
-/

/-- JSON values, the dynamic value domain of the client. Python None is
JValue.null, Python dicts are association lists in insertion order. -/
inductive JValue : Type where
  | null : JValue
  | bool : Bool → JValue
  | int : Int → JValue
  | str : String → JValue
  | list : List JValue → JValue
  | dict : List (String × JValue) → JValue

/-- Python exceptions that the embedded code paths can raise. -/
inductive PyExc : Type where
  | nameError : String → PyExc
  | keyError : String → PyExc
  | typeError : PyExc
  | assertionError : PyExc
deriving DecidableEq, Repr

/-- Lookup of a string key in a Python dict (first binding wins, matching
CPython semantics for dicts built without duplicate keys). -/
def dictGet : List (String × JValue) → String → Option JValue
  | [], _ => none
  | (k, v) :: rest, key => if k = key then some v else dictGet rest key

/-- Python subscript v[key] with a string key: dict lookup raising
KeyError when the key is absent, TypeError on any non-dict value
(str, list, int, bool and None all raise TypeError for a string key). -/
def pyGetItem : JValue → String → Except PyExc JValue
  | .dict kvs, key =>
      match dictGet kvs key with
      | some v => .ok v
      | none => .error (.keyError key)
  | _, _ => .error .typeError

/-- The error dict built by the normalizers:
a dict with keys code and message, in that order. -/
def mkError (code : Int) (message : JValue) : JValue :=
  .dict [("code", .int code), ("message", message)]

/-- Python test x is None. -/
def jIsNone : JValue → Bool
  | .null => true
  | _ => false

/-- Python equality test v == s against a string literal s: true exactly
when v is that string; comparison of a string with a value of another type
is False in Python, never an error. -/
def pyEqStr : JValue → String → Bool
  | .str t, s => t = s
  | _, _ => false

namespace Lsrc2

/-- Normalization step of lsrc2.session.Session.get_session_key applied to
the pair (response, error) obtained from the post helper. The source reads
status = response[quoted status] inside try; on TypeError or KeyError it
checks error: if error is not None it runs logger.error (NameError, since
logger is undefined) and otherwise logs via logging.info and returns the
response unchanged as the session key; when the status lookup succeeds it
runs logger.error(status), which raises NameError before the -32099 error
dict is built. The function returns only the session key, not the pair. -/
def get_session_key_norm (response error : JValue) : Except PyExc JValue :=
  match pyGetItem response "status" with
  | .error (.keyError _) | .error .typeError =>
      if jIsNone error then
        .ok response
      else
        .error (.nameError "logger")
  | .error e => .error e
  | .ok _status => .error (.nameError "logger")

/-- Normalization step of lsrc2.session.Session.participants applied to the
pair (responses, error) obtained from the post helper. The source reads
status = responses[quoted status] inside try; TypeError or KeyError is
passed over, returning the pair unchanged. When the lookup succeeds and
status equals the string No Tokens found: a non-null error triggers
logger.error (NameError, logger undefined), a null error leaves error as
is; any other status value replaces error by the -32099 dict; in both
completed branches responses becomes the empty list. -/
def participants_norm (responses error : JValue) : Except PyExc (JValue × JValue) :=
  match pyGetItem responses "status" with
  | .error (.keyError _) | .error .typeError => .ok (responses, error)
  | .error e => .error e
  | .ok status =>
      if pyEqStr status "No Tokens found" then
        if jIsNone error then
          .ok (.list [], error)
        else
          .error (.nameError "logger")
      else
        .ok (.list [], mkError (-32099) status)

/-- Normalization step of lsrc2.session.Session.delete_participants applied
to the pair (responses, error). When responses is a dict holding the key
status, error becomes the -32500 dict and responses the empty list; when it
is a dict without that key the source runs logger.error(message), raising
NameError since logger is undefined; non-dict responses pass through. -/
def delete_participants_norm (responses error : JValue) : Except PyExc (JValue × JValue) :=
  match responses with
  | .dict kvs =>
      match dictGet kvs "status" with
      | some status => .ok (.list [], mkError (-32500) status)
      | none => .error (.nameError "logger")
  | _ => .ok (responses, error)

end Lsrc2

namespace Limesurvey

/-- Normalization step of limesurvey.LimeSurveySession.get_session_key.
When the response is a dict, both inner branches (status key present or
absent) start with logger.error(...), which raises NameError because the
name logger is undefined in the module; the -32099 error dict is never
built. A non-dict response is returned unchanged as the session key. -/
def get_session_key_norm (response : JValue) (_error : JValue) : Except PyExc JValue :=
  match response with
  | .dict kvs =>
      match dictGet kvs "status" with
      | some _status => .error (.nameError "logger")
      | none => .error (.nameError "logger")
  | _ => .ok response

/-- Normalization step of limesurvey.LimeSurveySession.participants. When
responses is a dict with a status key: status equal to the string No Tokens
found with a non-null error runs logger.error (NameError), with a null
error leaves error as is; any other status replaces error by the -32099
dict; responses then becomes the empty list. A dict without the status key
runs logger.error(message), raising NameError. Non-dicts pass through. -/
def participants_norm (responses error : JValue) : Except PyExc (JValue × JValue) :=
  match responses with
  | .dict kvs =>
      match dictGet kvs "status" with
      | some status =>
          if pyEqStr status "No Tokens found" then
            if jIsNone error then
              .ok (.list [], error)
            else
              .error (.nameError "logger")
          else
            .ok (.list [], mkError (-32099) status)
      | none => .error (.nameError "logger")
  | _ => .ok (responses, error)

/-- Normalization step of limesurvey.LimeSurveySession.delete_participants,
textually identical to the lsrc2 variant: a dict with a status key yields
the -32500 error dict and an empty list, a dict without it reaches
logger.error(message) and raises NameError, non-dicts pass through. -/
def delete_participants_norm (responses error : JValue) : Except PyExc (JValue × JValue) :=
  match responses with
  | .dict kvs =>
      match dictGet kvs "status" with
      | some status => .ok (.list [], mkError (-32500) status)
      | none => .error (.nameError "logger")
  | _ => .ok (responses, error)

end Limesurvey

/-- JSON-RPC request envelope built by the static request helper of both
session classes: protocol version, correlation id, method name and
positional parameters. -/
structure Request where
  jsonrpc : String
  id : Int
  method : String
  params : List JValue

/-- The static generate_request_id helper, identical in both classes:
increment the class level counter and return its new value. Each class
holds its own counter (a mangled class attribute), shared by all instances
of that class in the process; the embedding threads the counter
explicitly. Returns (new counter value, id handed to the caller). -/
def generate_request_id (counter : Int) : Int × Int :=
  (counter + 1, counter + 1)

/-- The static request helper of both classes: build the envelope with
protocol version 2.0 and a freshly generated correlation id. -/
def buildRequest (counter : Int) (method : String) (params : List JValue) :
    Int × Request :=
  let (counter2, i) := generate_request_id counter
  (counter2, { jsonrpc := "2.0", id := i, method := method, params := params })

/-- Correlation ids handed out by n successive calls of
generate_request_id starting from a given counter value. -/
def requestIds (counter : Int) : Nat → List Int
  | 0 => []
  | n + 1 =>
      let (counter2, i) := generate_request_id counter
      i :: requestIds counter2 n

/-- Python equality v == n against an int (correlation ids are ints).
Python bools compare equal to 0 and 1; values of other types compare
unequal to an int without raising. -/
def pyEqInt : JValue → Int → Bool
  | .int m, n => m = n
  | .bool b, n => (if b then (1 : Int) else 0) = n
  | _, _ => false

/-- Substring test used by the Python membership operator on strings. -/
def strContainsSub (s pat : String) : Bool :=
  pat.isEmpty || (s.splitOn pat).length > 1

/-- Python membership test (string key in container): key lookup on dicts,
element equality on lists, substring test on strings, TypeError on the
remaining non-container values. -/
def pyContains (container : JValue) (key : String) : Except PyExc Bool :=
  match container with
  | .dict kvs => .ok (dictGet kvs key).isSome
  | .list xs => .ok (xs.any (fun x => pyEqStr x key))
  | .str s => .ok (strContainsSub s key)
  | _ => .error .typeError

/-- Transport step of lsrc2.session.Session: log the request, assert the
envelope holds method, params and id (true by construction of Request),
send it, parse the response JSON, assert the response correlation id
equals the request id (AssertionError on mismatch), then extract and
return the pair (result, error). The response body is the parsed JSON
value received from the server. -/
def Lsrc2.post (request : Request) (response : JValue) :
    Except PyExc (JValue × JValue) :=
  match pyGetItem response "id" with
  | .error e => .error e
  | .ok rid =>
      if pyEqInt rid request.id then
        match pyGetItem response "result" with
        | .error e => .error e
        | .ok result =>
            match pyGetItem response "error" with
            | .error e => .error e
            | .ok error => .ok (result, error)
      else
        .error .assertionError

/-- Transport step of limesurvey.LimeSurveySession: additionally asserts
that the parsed response contains the keys result, error and id before
logging a truthy error field, then asserts the response correlation id
equals the request id (AssertionError on mismatch) and returns the pair
(result, error). -/
def Limesurvey.post (request : Request) (response : JValue) :
    Except PyExc (JValue × JValue) :=
  match pyContains response "result" with
  | .error e => .error e
  | .ok false => .error .assertionError
  | .ok true =>
      match pyContains response "error" with
      | .error e => .error e
      | .ok false => .error .assertionError
      | .ok true =>
          match pyContains response "id" with
          | .error e => .error e
          | .ok false => .error .assertionError
          | .ok true =>
              match pyGetItem response "error" with
              | .error e => .error e
              | .ok error =>
                  match pyGetItem response "id" with
                  | .error e => .error e
                  | .ok rid =>
                      if pyEqInt rid request.id then
                        match pyGetItem response "result" with
                        | .error e => .error e
                        | .ok result => .ok (result, error)
                      else
                        .error .assertionError

/-- Session state visible to the lifecycle methods: the stored LSRC2
session key (None when acquisition failed or after close). -/
structure SessionState where
  key : JValue

/-- Observable calls issued by the client against the remote service,
recorded as a trace. -/
inductive Event : Type where
  | releaseSessionKey : JValue → Event
  | rpcCall : String → Event

/-- True exactly on release_session_key events. -/
def isReleaseEvent : Event → Bool
  | .releaseSessionKey _ => true
  | _ => false

/-- Result of running a context manager exit handler: the updated session
state, the trace of remote calls it issued, and the boolean the handler
returns to the interpreter (true would suppress an in-flight exception). -/
structure ExitOutcome where
  state : SessionState
  events : List Event
  suppress : Bool

/-- lsrc2.session.Session.close: issue release_session_key with the stored
key, clear the key, close the underlying requests session. -/
def Lsrc2.close (s : SessionState) : SessionState × List Event :=
  ({ key := .null }, [Event.releaseSessionKey s.key])

/-- The context manager exit handler of lsrc2.session.Session: it calls
close() and returns False so that any exception is re-raised. -/
def Lsrc2.sessionExit (s : SessionState) : ExitOutcome :=
  let (s2, ev) := Lsrc2.close s
  { state := s2, events := ev, suppress := false }

/-- The context manager exit handler of limesurvey.LimeSurveySession: it
issues release_session_key with the stored key and returns False so that
any exception is re-raised. -/
def Limesurvey.sessionExit (s : SessionState) : ExitOutcome :=
  { state := s, events := [Event.releaseSessionKey s.key], suppress := false }

/-- Semantics of the Python with statement specialised to these sessions:
run the body (which produces a trace of remote calls and optionally an
uncaught exception), then unconditionally run the exit handler; the
exception survives unless the handler returns True. Returns the full
trace of remote calls together with the exception escaping the block. -/
def runWithBlock (exitHandler : SessionState → ExitOutcome)
    (s : SessionState) (body : SessionState → List Event × Option PyExc) :
    List Event × Option PyExc :=
  let bodyRun := body s
  let ex := exitHandler s
  (bodyRun.1 ++ ex.events,
    match bodyRun.2 with
    | none => none
    | some e => if ex.suppress then none else some e)

/-! Helper lemmas about the correlation id counter. -/

/-- Every id generated from a counter value strictly exceeds it. -/
theorem requestIds_mem_gt : ∀ (n : Nat) (c i : Int), i ∈ requestIds c n → c < i := by
  intro n
  induction n with
  | zero =>
      intro c i h
      simp [requestIds] at h
  | succ n ih =>
      intro c i h
      simp only [requestIds, generate_request_id, List.mem_cons] at h
      rcases h with h | h
      · omega
      · have := ih (c + 1) i h
        omega

/-- Ids generated from any counter value are strictly increasing. -/
theorem requestIds_pairwise : ∀ (n : Nat) (c : Int), (requestIds c n).Pairwise (· < ·) := by
  intro n
  induction n with
  | zero =>
      intro c
      simp [requestIds]
  | succ n ih =>
      intro c
      simp only [requestIds, generate_request_id]
      refine List.Pairwise.cons ?_ (ih (c + 1))
      intro i h
      have := requestIds_mem_gt n (c + 1) i h
      omega

/-- Generating ids in two batches is the same as one batch: the counter
after m calls from value c is c + m, so a fresh session continuing the
shared counter never reuses or resets ids. -/
theorem requestIds_append : ∀ (m k : Nat) (c : Int),
    requestIds c (m + k) = requestIds c m ++ requestIds (c + m) k := by
  intro m
  induction m with
  | zero =>
      intro k c
      simp [requestIds]
  | succ m ih =>
      intro k c
      have hmk : m + 1 + k = (m + k) + 1 := by omega
      rw [hmk]
      simp only [requestIds, generate_request_id]
      rw [ih k (c + 1)]
      have hc : c + 1 + (m : Int) = c + ((m : Nat) + 1 : Nat) := by push_cast; ring
      rw [hc]
      simp

/-- Closed form: the ids generated from counter value c are
c + 1, c + 2, ..., c + n. -/
theorem requestIds_eq_map : ∀ (n : Nat) (c : Int),
    requestIds c n = (List.range n).map (fun j : Nat => c + 1 + (j : Int)) := by
  intro n
  induction n with
  | zero =>
      intro c
      simp [requestIds]
  | succ n ih =>
      intro c
      rw [requestIds_append n 1 c, ih c, List.range_succ, List.map_append]
      refine congrArg₂ List.append rfl ?_
      simp only [requestIds, generate_request_id, List.map_cons, List.map_nil]
      refine congrArg₂ List.cons ?_ rfl
      omega

/-! Claim theorems. -/

/-- Claim C1: the spec states that for every anomalous response shape in
the normalization table the normalizers return a (result, error) pair and
never raise. The code refutes this: on several of the listed anomalies the
normalizers raise NameError, because the statement logger.error(...)
references a name that is never defined. This theorem evaluates the
embedded normalizers on those anomalous shapes and shows the exception. -/
theorem claim_C1_normalizers_raise_nameError :
    Lsrc2.get_session_key_norm
        (.dict [("status", .str "Invalid user name or password")]) .null
      = .error (.nameError "logger") ∧
    Limesurvey.get_session_key_norm
        (.dict [("status", .str "Invalid user name or password")]) .null
      = .error (.nameError "logger") ∧
    Limesurvey.get_session_key_norm (.dict [("token", .int 1)]) .null
      = .error (.nameError "logger") ∧
    Lsrc2.participants_norm (.dict [("status", .str "No Tokens found")])
        (mkError (-32600) (.str "server fault"))
      = .error (.nameError "logger") ∧
    Limesurvey.participants_norm (.dict [("token", .int 1)]) .null
      = .error (.nameError "logger") ∧
    Lsrc2.delete_participants_norm (.dict [("token", .int 1)]) .null
      = .error (.nameError "logger") :=
  ⟨rfl, rfl, rfl, rfl, rfl, rfl⟩

/-- Claim C2: the spec states that authenticate returning a mapping with a
status key yields result null and error code -32099 with the status text
as message. The code refutes this for every status text: both embedded
session key normalizers raise NameError at logger.error before the -32099
error dict is built, so neither the pair nor the null result is produced. -/
theorem claim_C2_authenticate_status_raises (x : String) (error : JValue) :
    Lsrc2.get_session_key_norm (.dict [("status", .str x)]) error
      = .error (.nameError "logger") ∧
    Limesurvey.get_session_key_norm (.dict [("status", .str x)]) error
      = .error (.nameError "logger") := by
  constructor <;>
    simp [Lsrc2.get_session_key_norm, Limesurvey.get_session_key_norm,
      pyGetItem, dictGet]

/-- Claim C2, witness: a concrete status text. -/
theorem claim_C2_witness :
    Lsrc2.get_session_key_norm
        (.dict [("status", .str "Invalid session key")]) .null
      = .error (.nameError "logger") ∧
    Limesurvey.get_session_key_norm
        (.dict [("status", .str "Invalid session key")]) .null
      = .error (.nameError "logger") :=
  claim_C2_authenticate_status_raises "Invalid session key" .null

/-- Claim C3: the spec states that list_participants returning the mapping
with status No Tokens found yields ([], null) regardless of the protocol
error field. The code confirms the half with a null protocol error (first
two conjuncts) and refutes the half with a non-null protocol error: both
embedded normalizers raise NameError at logger.error before the protocol
error can be discarded (last two conjuncts). -/
theorem claim_C3_no_tokens_found :
    Lsrc2.participants_norm (.dict [("status", .str "No Tokens found")]) .null
      = .ok (.list [], .null) ∧
    Limesurvey.participants_norm (.dict [("status", .str "No Tokens found")]) .null
      = .ok (.list [], .null) ∧
    Lsrc2.participants_norm (.dict [("status", .str "No Tokens found")])
        (mkError (-32600) (.str "server fault"))
      = .error (.nameError "logger") ∧
    Limesurvey.participants_norm (.dict [("status", .str "No Tokens found")])
        (mkError (-32600) (.str "server fault"))
      = .error (.nameError "logger") :=
  ⟨rfl, rfl, rfl, rfl⟩

/-- Claim C4: list_participants returning a mapping whose status text
differs from No Tokens found yields the empty list together with the error
dict of code -32099 carrying that text, whatever the incoming protocol
error was; both implementations agree. -/
theorem claim_C4_participants_other_status (y : String) (error : JValue)
    (h : y ≠ "No Tokens found") :
    Lsrc2.participants_norm (.dict [("status", .str y)]) error
      = .ok (.list [], mkError (-32099) (.str y)) ∧
    Limesurvey.participants_norm (.dict [("status", .str y)]) error
      = .ok (.list [], mkError (-32099) (.str y)) := by
  constructor <;>
    simp [Lsrc2.participants_norm, Limesurvey.participants_norm,
      pyGetItem, dictGet, pyEqStr, h]

/-- Claim C4, witness: a concrete status text distinct from the benign
empty marker, with a null incoming protocol error. -/
theorem claim_C4_witness :
    "Error: Invalid survey ID" ≠ "No Tokens found" ∧
    Lsrc2.participants_norm
        (.dict [("status", .str "Error: Invalid survey ID")]) .null
      = .ok (.list [], mkError (-32099) (.str "Error: Invalid survey ID")) ∧
    Limesurvey.participants_norm
        (.dict [("status", .str "Error: Invalid survey ID")]) .null
      = .ok (.list [], mkError (-32099) (.str "Error: Invalid survey ID")) := by
  refine ⟨by decide, ?_⟩
  exact claim_C4_participants_other_status "Error: Invalid survey ID" .null (by decide)

/-- Claim C5: delete_participants returning a mapping with a status key
yields the empty list together with the error dict of code -32500 carrying
the status value, whatever the incoming protocol error was; both
implementations agree. -/
theorem claim_C5_delete_participants_status (z : String) (error : JValue) :
    Lsrc2.delete_participants_norm (.dict [("status", .str z)]) error
      = .ok (.list [], mkError (-32500) (.str z)) ∧
    Limesurvey.delete_participants_norm (.dict [("status", .str z)]) error
      = .ok (.list [], mkError (-32500) (.str z)) := by
  constructor <;>
    simp [Lsrc2.delete_participants_norm, Limesurvey.delete_participants_norm,
      dictGet]

/-- Claim C6, counterexample: the spec states that a mapping result with
no status key makes every normalizer synthesize a -32099 diagnostic error
and null or empty the result. At this concrete input the lsrc2
list_participants normalizer instead returns the mapping and the null
error unchanged, and the limesurvey one raises NameError. -/
theorem claim_C6_counterexample :
    Lsrc2.participants_norm (.dict [("token", .str "abc")]) .null
      = .ok (.dict [("token", .str "abc")], .null) ∧
    Limesurvey.participants_norm (.dict [("token", .str "abc")]) .null
      = .error (.nameError "logger") :=
  ⟨rfl, rfl⟩

/-- Claim C6, amended: when the raw result is a mapping with no status
key, the lsrc2 list_participants normalizer returns the mapping and the
protocol error unchanged and the lsrc2 authenticate normalizer (under a
null protocol error) returns the mapping itself as the session key, while
the limesurvey normalizers reach the diagnostic branch but raise NameError
on the undefined name logger before the -32099 error is synthesized. -/
theorem claim_C6_amended (kvs : List (String × JValue)) (error : JValue)
    (h : dictGet kvs "status" = none) :
    Lsrc2.participants_norm (.dict kvs) error = .ok (.dict kvs, error) ∧
    Lsrc2.get_session_key_norm (.dict kvs) .null = .ok (.dict kvs) ∧
    Limesurvey.participants_norm (.dict kvs) error
      = .error (.nameError "logger") ∧
    Limesurvey.get_session_key_norm (.dict kvs) error
      = .error (.nameError "logger") := by
  refine ⟨?_, ?_, ?_, ?_⟩ <;>
    simp [Lsrc2.participants_norm, Lsrc2.get_session_key_norm,
      Limesurvey.participants_norm, Limesurvey.get_session_key_norm,
      pyGetItem, jIsNone, h]

/-- Claim C6, witness for the amended statement: a concrete mapping
without a status key. -/
theorem claim_C6_amended_witness :
    Lsrc2.participants_norm (.dict [("token", .str "xyz")]) .null
      = .ok (.dict [("token", .str "xyz")], .null) ∧
    Lsrc2.get_session_key_norm (.dict [("token", .str "xyz")]) .null
      = .ok (.dict [("token", .str "xyz")]) ∧
    Limesurvey.participants_norm (.dict [("token", .str "xyz")]) .null
      = .error (.nameError "logger") ∧
    Limesurvey.get_session_key_norm (.dict [("token", .str "xyz")]) .null
      = .error (.nameError "logger") :=
  claim_C6_amended [("token", .str "xyz")] .null rfl

/-- Claim C7: correlation ids generated from the shared class counter are
strictly increasing with no repeats (first conjunct); generating in two
batches, as two successive sessions of the same class do, continues the
counter without a reset (second conjunct); and starting from the initial
counter value 0 the ids handed out are exactly 1, 2, ..., n, the counter
being incremented before each request (third conjunct). -/
theorem claim_C7_correlation_ids (n m k : Nat) :
    (requestIds 0 n).Pairwise (· < ·) ∧
    requestIds 0 (m + k) = requestIds 0 m ++ requestIds (m : Int) k ∧
    requestIds 0 n = (List.range n).map (fun j : Nat => (j : Int) + 1) := by
  refine ⟨requestIds_pairwise n 0, ?_, ?_⟩
  · have := requestIds_append m k 0
    simpa using this
  · rw [requestIds_eq_map n 0]
    refine List.map_congr_left ?_
    intro j _
    omega

/-- Claim C8: for a request and a well-formed response carrying a
correlation id, both transport helpers abort with AssertionError when the
response correlation id differs from the request id, and return the raw
(result, error) pair when the ids match. -/
theorem claim_C8_post_correlation_id (request : Request) (rid : Int)
    (result error : JValue) :
    (rid ≠ request.id →
      Lsrc2.post request
          (.dict [("id", .int rid), ("result", result), ("error", error)])
        = .error .assertionError ∧
      Limesurvey.post request
          (.dict [("id", .int rid), ("result", result), ("error", error)])
        = .error .assertionError) ∧
    (rid = request.id →
      Lsrc2.post request
          (.dict [("id", .int rid), ("result", result), ("error", error)])
        = .ok (result, error) ∧
      Limesurvey.post request
          (.dict [("id", .int rid), ("result", result), ("error", error)])
        = .ok (result, error)) := by
  constructor <;> intro h <;> constructor <;>
    simp [Lsrc2.post, Limesurvey.post, pyGetItem, pyContains, dictGet,
      pyEqInt, h]

/-- Claim C8, witness: a concrete mismatching exchange aborts and a
concrete matching exchange returns the raw pair, in both implementations. -/
theorem claim_C8_witness :
    Lsrc2.post { jsonrpc := "2.0", id := 7, method := "list_surveys", params := [] }
        (.dict [("id", .int 8), ("result", .str "r"), ("error", .null)])
      = .error .assertionError ∧
    Limesurvey.post { jsonrpc := "2.0", id := 7, method := "list_surveys", params := [] }
        (.dict [("id", .int 7), ("result", .str "r"), ("error", .null)])
      = .ok (.str "r", .null) := by
  constructor
  · exact ((claim_C8_post_correlation_id
      { jsonrpc := "2.0", id := 7, method := "list_surveys", params := [] }
      8 (.str "r") .null).1 (by decide)).1
  · exact ((claim_C8_post_correlation_id
      { jsonrpc := "2.0", id := 7, method := "list_surveys", params := [] }
      7 (.str "r") .null).2 rfl).2

/-- Claim C9: in a scoped use of a session, whatever the body did and
whether or not it raised, the exit handler of either class issues the
release session key call, so a body issuing no release of its own leads
to exactly one release call in the trace of the whole block. -/
theorem claim_C9_release_on_scope_exit (s : SessionState)
    (body : SessionState → List Event × Option PyExc)
    (h : (body s).1.filter isReleaseEvent = []) :
    ((runWithBlock Lsrc2.sessionExit s body).1.filter isReleaseEvent).length = 1 ∧
    ((runWithBlock Limesurvey.sessionExit s body).1.filter isReleaseEvent).length = 1 := by
  constructor <;>
    simp [runWithBlock, Lsrc2.sessionExit, Lsrc2.close, Limesurvey.sessionExit,
      List.filter_append, h, isReleaseEvent]

/-- Claim C9, witness: a body that performs one failing list_surveys call
and raises still leads to exactly one release call on scope exit. -/
theorem claim_C9_witness :
    ((runWithBlock Lsrc2.sessionExit { key := .str "KEY" }
        (fun _ => ([Event.rpcCall "list_surveys"], some .typeError))).1.filter
      isReleaseEvent).length = 1 ∧
    ((runWithBlock Limesurvey.sessionExit { key := .str "KEY" }
        (fun _ => ([Event.rpcCall "list_surveys"], some .typeError))).1.filter
      isReleaseEvent).length = 1 :=
  claim_C9_release_on_scope_exit { key := .str "KEY" }
    (fun _ => ([Event.rpcCall "list_surveys"], some .typeError)) rfl

/-- Claim C10: both exit handlers return False, so an exception raised by
the body of the with block escapes the block unchanged and is never
suppressed by the session cleanup. -/
theorem claim_C10_exceptions_not_suppressed (s : SessionState)
    (body : SessionState → List Event × Option PyExc) (e : PyExc)
    (h : (body s).2 = some e) :
    (runWithBlock Lsrc2.sessionExit s body).2 = some e ∧
    (runWithBlock Limesurvey.sessionExit s body).2 = some e ∧
    (Lsrc2.sessionExit s).suppress = false ∧
    (Limesurvey.sessionExit s).suppress = false := by
  refine ⟨?_, ?_, rfl, rfl⟩ <;>
    simp [runWithBlock, Lsrc2.sessionExit, Lsrc2.close, Limesurvey.sessionExit, h]

/-- Claim C10, witness: a concrete body raising TypeError; the exception
escapes both kinds of scoped session. -/
theorem claim_C10_witness :
    (runWithBlock Lsrc2.sessionExit { key := .str "KEY" }
        (fun _ => ([Event.rpcCall "list_surveys"], some .typeError))).2
      = some .typeError ∧
    (runWithBlock Limesurvey.sessionExit { key := .str "KEY" }
        (fun _ => ([Event.rpcCall "list_surveys"], some .typeError))).2
      = some .typeError ∧
    (Lsrc2.sessionExit { key := .str "KEY" }).suppress = false ∧
    (Limesurvey.sessionExit { key := .str "KEY" }).suppress = false :=
  claim_C10_exceptions_not_suppressed { key := .str "KEY" }
    (fun _ => ([Event.rpcCall "list_surveys"], some .typeError)) .typeError rfl
